import Mathlib

/-!
Shallow embedding of the CPU generation classifier
(`determine_cpu_generation` in `utils.py` of the
hpc-cpu-specification-api repository) and proofs of its
specified properties.

Python strings are modelled as `List Char`; the optional
`family` parameter and the possibly-absent `launch_year`
are modelled as `Option` values.  The classifier is a pure
total Lean function, mirroring the source line by line.
-/

namespace CpuSpec

/-- Model of Python `str.startswith` on character lists:
`listStarts n h` is true when `n` is an initial segment of `h`. -/
def listStarts : List Char → List Char → Bool
  | [], _ => true
  | _ :: _, [] => false
  | n :: ns, h :: hs => n == h && listStarts ns hs

/-- Model of the Python `in` operator on strings:
`pyIn n h` is true when `n` occurs as a contiguous substring of `h`. -/
def pyIn (needle : List Char) : List Char → Bool
  | [] => listStarts needle []
  | h :: t => listStarts needle (h :: t) || pyIn needle t

/-- Model of Python `str.upper` (ASCII, which covers all inputs used). -/
def pyUpper (l : List Char) : List Char := l.map Char.toUpper

/-- Model of Python `str.strip`: drop whitespace at both ends. -/
def pyStrip (l : List Char) : List Char :=
  ((l.dropWhile Char.isWhitespace).reverse.dropWhile Char.isWhitespace).reverse

/-- The normalisation the source applies before matching:
`str(x).upper().strip()`. -/
def norm (l : List Char) : List Char := pyStrip (pyUpper l)

/-- ASCII value of a digit character. -/
def digitVal (c : Char) : Nat := c.toNat - 48

/-- Model of the regex search for four consecutive digits followed by
`int(...)`: scan left to right for the first position where four
consecutive digit characters occur, and return their numeric value. -/
def extract4 : List Char → Option Nat
  | c1 :: c2 :: c3 :: c4 :: rest =>
    if c1.isDigit && c2.isDigit && c3.isDigit && c4.isDigit then
      some (digitVal c1 * 1000 + digitVal c2 * 100 + digitVal c3 * 10 + digitVal c4)
    else extract4 (c2 :: c3 :: c4 :: rest)
  | _ => none

/-- Guard of the AMD branch: `"EPYC" in cpu_model_upper or "EPYC" in family_upper`. -/
def epycCond (mu fu : List Char) : Bool :=
  pyIn "EPYC".data mu || pyIn "EPYC".data fu

/-- Guard of the Intel Scalable branch:
`"XEON" in cpu_model_upper or "XEON" in family_upper`. -/
def xeonCond (mu fu : List Char) : Bool :=
  pyIn "XEON".data mu || pyIn "XEON".data fu

/-- Guard of the legacy Intel branch:
`"XEON" in family_upper and ("E5" in cpu_model_upper or "E3" in cpu_model_upper)`. -/
def legacyCond (mu fu : List Char) : Bool :=
  pyIn "XEON".data fu && (pyIn "E5".data mu || pyIn "E3".data mu)

/-- The AMD EPYC branch of the source (`utils.py` lines 32-55). -/
def amdBranch (mu : List Char) (year : Int) : String :=
  if pyIn "EPYC 7".data mu || pyIn "7".data mu then
    if year = 2017 then "Naples"
    else if year = 2019 ∨ year = 2020 then "Rome"
    else if year = 2021 ∨ year = 2022 then "Milan"
    else ""
  else if pyIn "EPYC 9".data mu || (pyIn "9".data mu && pyIn "EPYC".data mu) then
    if year = 2022 ∨ year = 2023 then "Genoa" else ""
  else if pyIn "EPYC 8".data mu then
    if year ≥ 2023 then "Siena" else ""
  else if pyIn "EPYC 4".data mu then
    if year = 2023 then "Genoa" else ""
  else ""

/-- The series-digit decision of the Intel Scalable branch on an extracted
4-digit model number (`utils.py` lines 73-104); `none` models falling
through with no label. -/
def seriesStep (v : Nat) (year : Int) : Option String :=
  if v / 1000 = 8 then
    if year = 2017 ∨ year = 2018 then some "Skylake"
    else if year = 2023 ∨ year = 2024 then
      if 8500 ≤ v ∧ v < 8600 then
        some (if year = 2023 then "Sapphire Rapids" else "Emerald Rapids")
      else if 8600 ≤ v then some "Emerald Rapids"
      else some "Sapphire Rapids"
    else none
  else if v / 1000 = 6 then
    if year = 2019 ∨ year = 2020 then some "Cascade Lake" else none
  else if v / 1000 = 5 then
    if year = 2021 then some "Ice Lake" else none
  else if v / 1000 = 4 then
    if year = 2021 then some "Ice Lake" else none
  else none

/-- The 4-digit model-number step of the Intel Scalable branch
(`utils.py` lines 70-104): extract the first 4-digit number and apply the
series-digit decision; `none` models falling through with no label. -/
def intelSeries (mu : List Char) (year : Int) : Option String :=
  match extract4 mu with
  | none => none
  | some v => seriesStep v year

/-- The year table of the Intel Scalable family fallback
(`utils.py` lines 108-117). -/
def fallbackYear (year : Int) : Option String :=
  if year = 2017 ∨ year = 2018 then some "Skylake"
  else if year = 2019 ∨ year = 2020 then some "Cascade Lake"
  else if year = 2021 then some "Ice Lake"
  else if year = 2023 then some "Sapphire Rapids"
  else if year = 2024 then some "Emerald Rapids"
  else none

/-- The family-keyword fallback of the Intel Scalable branch
(`utils.py` lines 107-117); `none` models falling through with no label. -/
def intelFallback (fu : List Char) (year : Int) : Option String :=
  if pyIn "SCALABLE".data fu || pyIn "GOLD".data fu ||
     pyIn "PLATINUM".data fu || pyIn "SILVER".data fu then
    fallbackYear year
  else none

/-- The whole Intel Scalable branch: the model-number step, then the
family fallback, then the empty result. -/
def intelBranch (mu fu : List Char) (year : Int) : String :=
  match intelSeries mu year with
  | some s => s
  | none =>
    match intelFallback fu year with
    | some s => s
    | none => ""

/-- The legacy Intel branch of the source (`utils.py` lines 120-132). -/
def legacyBranch (mu : List Char) (year : Int) : String :=
  if pyIn "V2".data mu || pyIn "V 2".data mu then
    if year = 2013 then "Ivy Bridge" else ""
  else if pyIn "V3".data mu || pyIn "V 3".data mu then
    if year = 2014 then "Haswell" else ""
  else if pyIn "V4".data mu || pyIn "V 4".data mu then
    if year = 2016 then "Broadwell" else ""
  else ""

/-- Vendor dispatch on the normalised inputs: the `if/elif` chain of the
source, with `""` when no branch matches. -/
def coreClassify (mu fu : List Char) (year : Int) : String :=
  if epycCond mu fu then amdBranch mu year
  else if xeonCond mu fu then intelBranch mu fu year
  else if legacyCond mu fu then legacyBranch mu year
  else ""

/-- The classifier `determine_cpu_generation` of `utils.py`.
`launch_year` is `Option Int` (Python passes `None` or an `int`);
`family` is `Option (List Char)` (default `None`).  The first guard models
`if not cpu_model or not launch_year: return ""`, where Python falsiness of
an integer means `None` or `0`. -/
def determine_cpu_generation (cpu_model : List Char) (launch_year : Option Int)
    (family : Option (List Char)) : String :=
  if cpu_model = [] ∨ launch_year = none ∨ launch_year = some 0 then ""
  else
    coreClassify (norm cpu_model) (norm (family.getD [])) (launch_year.getD 0)

/-- A sequence of classifier calls, as made by record creation, bulk
row loading or the backfill pass: each call is independent, so the run is
a pointwise map over the argument list. -/
def runCalls (calls : List (List Char × Option Int × Option (List Char))) :
    List String :=
  calls.map (fun c => determine_cpu_generation c.1 c.2.1 c.2.2)

/-- Once the degenerate-input guard passes (non-empty model, year neither
absent nor zero), the classifier is the vendor dispatch on the normalised
inputs. -/
theorem determine_eq_core (m : List Char) (y : Int) (f : Option (List Char))
    (hm : m ≠ []) (hy : y ≠ 0) :
    determine_cpu_generation m (some y) f
      = coreClassify (norm m) (norm (f.getD [])) y := by
  unfold determine_cpu_generation
  rw [if_neg]
  · rfl
  · simp [hm, hy]

example : determine_cpu_generation "EPYC 7301".data (some 2017) (some "AMD EPYC".data) = "Naples" := by decide
example : determine_cpu_generation "EPYC 7302".data (some 2021) (some "AMD EPYC".data) = "Milan" := by decide
example : determine_cpu_generation "EPYC 9354".data (some 2023) (some "AMD EPYC".data) = "Genoa" := by decide
example : determine_cpu_generation "Gold 6240".data (some 2019) (some "Intel Xeon Gold".data) = "Cascade Lake" := by decide
example : determine_cpu_generation "Platinum 8592".data (some 2023) (some "Intel Xeon Platinum".data) = "Sapphire Rapids" := by decide
example : determine_cpu_generation "Platinum 8592".data (some 2024) (some "Intel Xeon Platinum".data) = "Emerald Rapids" := by decide
example : determine_cpu_generation "Gold 6140".data (some 2022) (some "Intel Xeon Gold".data) = "" := by decide
example : determine_cpu_generation "E5-2690 V3".data (some 2014) (some "Intel Xeon".data) = "" := by decide

/-- Characterisation of `listStarts`: an initial-segment test. -/
theorem listStarts_iff (n h : List Char) :
    listStarts n h = true ↔ ∃ t, h = n ++ t := by
  induction n generalizing h with
  | nil => simp [listStarts]
  | cons a as ih =>
    cases h with
    | nil => simp [listStarts]
    | cons b bs =>
      simp only [listStarts, Bool.and_eq_true, beq_iff_eq, ih]
      constructor
      · rintro ⟨rfl, t, rfl⟩; exact ⟨t, rfl⟩
      · rintro ⟨t, ht⟩
        injection ht with h1 h2
        exact ⟨h1.symm, t, h2⟩

/-- Characterisation of `pyIn`: contiguous-substring occurrence. -/
theorem pyIn_iff (n h : List Char) :
    pyIn n h = true ↔ ∃ s t, h = s ++ n ++ t := by
  induction h with
  | nil =>
    simp only [pyIn, listStarts_iff]
    constructor
    · rintro ⟨t, ht⟩
      exact ⟨[], t, by simpa using ht⟩
    · rintro ⟨s, t, ht⟩
      have h0 : s = [] ∧ n = [] ∧ t = [] := by simpa using ht.symm
      exact ⟨[], by simp [h0.2.1]⟩
  | cons b bs ih =>
    simp only [pyIn, Bool.or_eq_true, listStarts_iff, ih]
    constructor
    · rintro (⟨t, ht⟩ | ⟨s, t, ht⟩)
      · exact ⟨[], t, by simpa using ht⟩
      · exact ⟨b :: s, t, by simp [ht]⟩
    · rintro ⟨s, t, ht⟩
      cases s with
      | nil => exact Or.inl ⟨t, by simpa using ht⟩
      | cons c cs =>
        injection ht with h1 h2
        exact Or.inr ⟨cs, t, h2⟩

/-- An occurrence survives mapping a function over both strings. -/
theorem pyIn_map (f : Char → Char) (n h : List Char) (hin : pyIn n h = true) :
    pyIn (n.map f) (h.map f) = true := by
  rcases (pyIn_iff n h).mp hin with ⟨s, t, rfl⟩
  exact (pyIn_iff _ _).mpr ⟨s.map f, t.map f, by simp⟩

/-- An occurrence of a non-empty needle none of whose characters satisfy a
predicate survives dropping a satisfying run from the front. -/
theorem pyIn_dropWhile (p : Char → Bool) (n h : List Char)
    (hn : ∀ c ∈ n, p c = false) (hne : n ≠ []) (hin : pyIn n h = true) :
    pyIn n (h.dropWhile p) = true := by
  rcases (pyIn_iff n h).mp hin with ⟨s, t, rfl⟩
  induction s with
  | nil =>
    cases n with
    | nil => exact absurd rfl hne
    | cons a as =>
      simp only [List.nil_append, List.cons_append, List.dropWhile_cons]
      rw [if_neg (by simp [hn a (List.mem_cons_self a as)])]
      exact (pyIn_iff _ _).mpr ⟨[], t, by simp⟩
  | cons a s' ih =>
    simp only [List.cons_append, List.dropWhile_cons]
    by_cases hp : p a = true
    · rw [if_pos (by simp [hp])]
      exact ih ((pyIn_iff _ _).mpr ⟨s', t, rfl⟩)
    · rw [if_neg (by simpa using hp)]
      exact (pyIn_iff _ _).mpr ⟨a :: s', t, rfl⟩

/-- An occurrence survives reversing both strings. -/
theorem pyIn_reverse (n h : List Char) (hin : pyIn n h = true) :
    pyIn n.reverse h.reverse = true := by
  rcases (pyIn_iff n h).mp hin with ⟨s, t, rfl⟩
  exact (pyIn_iff _ _).mpr ⟨t.reverse, s.reverse, by simp⟩

/-- A needle that is already uppercase, non-empty and whitespace-free
survives the normalisation the classifier applies to its inputs. -/
theorem pyIn_norm (n h : List Char) (hup : n.map Char.toUpper = n)
    (hws : ∀ c ∈ n, c.isWhitespace = false) (hne : n ≠ [])
    (hin : pyIn n h = true) : pyIn n (norm h) = true := by
  unfold norm pyStrip pyUpper
  have h1 : pyIn n (h.map Char.toUpper) = true := by
    have := pyIn_map Char.toUpper n h hin
    rwa [hup] at this
  have h2 := pyIn_dropWhile Char.isWhitespace n _ hws hne h1
  have h3 := pyIn_reverse n _ h2
  have h4 := pyIn_dropWhile Char.isWhitespace n.reverse _
    (fun c hc => hws c (List.mem_reverse.mp hc))
    (fun hrev => hne (by simpa using congrArg List.reverse hrev)) h3
  have h5 := pyIn_reverse n.reverse _ h4
  rwa [List.reverse_reverse] at h5

/-- Lift membership along an inclusion of concrete lists. -/
theorem mem_of_mem_of_incl {s : String} {l₁ l₂ : List String} (h : s ∈ l₁)
    (hsub : ∀ x ∈ l₁, x ∈ l₂) : s ∈ l₂ := hsub s h

/-- When the Intel Scalable guard fails, the legacy Intel guard fails too:
the legacy guard needs "XEON" in the family, which the Scalable guard
already catches.  The legacy branch of the source is therefore dead code. -/
theorem legacyCond_eq_false (mu fu : List Char) (hx : xeonCond mu fu = false) :
    legacyCond mu fu = false := by
  unfold xeonCond at hx
  rcases Bool.or_eq_false_iff.mp hx with ⟨h1, h2⟩
  unfold legacyCond
  simp [h2]

/-- Every output of the AMD branch. -/
theorem amdBranch_mem (mu : List Char) (y : Int) :
    amdBranch mu y ∈ (["", "Naples", "Rome", "Milan", "Genoa", "Siena"] : List String) := by
  unfold amdBranch
  repeat' split
  all_goals decide

/-- Every label the Intel model-number step can produce. -/
theorem intelSeries_mem (mu : List Char) (y : Int) (s : String)
    (h : intelSeries mu y = some s) :
    s ∈ (["Skylake", "Cascade Lake", "Ice Lake", "Sapphire Rapids",
          "Emerald Rapids"] : List String) := by
  unfold intelSeries seriesStep at h
  repeat' split at h
  all_goals cases h
  all_goals decide

/-- Every label the Intel family fallback can produce. -/
theorem intelFallback_mem (fu : List Char) (y : Int) (s : String)
    (h : intelFallback fu y = some s) :
    s ∈ (["Skylake", "Cascade Lake", "Ice Lake", "Sapphire Rapids",
          "Emerald Rapids"] : List String) := by
  unfold intelFallback fallbackYear at h
  repeat' split at h
  all_goals cases h
  all_goals decide

/-- Every output of the Intel Scalable branch. -/
theorem intelBranch_mem (mu fu : List Char) (y : Int) :
    intelBranch mu fu y ∈
      (["", "Skylake", "Cascade Lake", "Ice Lake", "Sapphire Rapids",
        "Emerald Rapids"] : List String) := by
  unfold intelBranch
  split
  next s hs =>
    exact mem_of_mem_of_incl (intelSeries_mem mu y s hs) (by decide)
  next hs =>
    split
    next s2 hs2 =>
      exact mem_of_mem_of_incl (intelFallback_mem fu y s2 hs2) (by decide)
    next => decide

/-- Every output of the legacy Intel branch. -/
theorem legacyBranch_mem (mu : List Char) (y : Int) :
    legacyBranch mu y ∈ (["", "Ivy Bridge", "Haswell", "Broadwell"] : List String) := by
  unfold legacyBranch
  repeat' split
  all_goals decide

/-- Claim C1: the spec says `classify("E5-2690 V3", 2014, "Intel Xeon")`
returns "Haswell" via the legacy Intel branch.  The code disagrees: the
family contains "XEON", so the Intel Scalable branch captures the input
first (extracting 2690, series digit 2, and no fallback keyword in the
family), and the classifier returns the empty (unknown) result.  This
theorem evaluates the code at that failing input. -/
theorem c1_legacy_example_eval :
    determine_cpu_generation "E5-2690 V3".data (some 2014)
      (some "Intel Xeon".data) = "" := by decide

/-- Claim C6: for every year value and every family value the classifier
returns the unknown result on an empty model string, and for every model
string and family it returns the unknown result when the launch year is
absent; the guard fires before any matching. -/
theorem c6_empty_input_closure (model : List Char) (year : Option Int)
    (family : Option (List Char)) :
    determine_cpu_generation [] year family = ""
    ∧ determine_cpu_generation model none family = "" := by
  constructor
  · unfold determine_cpu_generation
    rw [if_pos]; exact Or.inl rfl
  · unfold determine_cpu_generation
    rw [if_pos]; exact Or.inr (Or.inl rfl)

/-- Claim C10: launch year 0 is rejected by the falsiness guard exactly
like an absent year, returning the unknown result for every model and
family, while every non-zero integer year (negative years included)
proceeds to the vendor-dispatch matching. -/
theorem c10_year_zero_treated_absent (model : List Char)
    (family : Option (List Char)) :
    determine_cpu_generation model (some 0) family = ""
    ∧ ∀ y : Int, y ≠ 0 → model ≠ [] →
        determine_cpu_generation model (some y) family
          = coreClassify (norm model) (norm (family.getD [])) y := by
  constructor
  · unfold determine_cpu_generation
    rw [if_pos]; exact Or.inr (Or.inr rfl)
  · intro y hy hm
    exact determine_eq_core model y family hm hy

/-- Witness for C10 at a concrete model and family, with year 0 and with
the non-zero (negative) year -1. -/
theorem c10_year_zero_treated_absent_witness :
    determine_cpu_generation "EPYC 7301".data (some 0) (some "AMD EPYC".data) = ""
    ∧ determine_cpu_generation "EPYC 7301".data (some (-1)) (some "AMD EPYC".data)
        = coreClassify (norm "EPYC 7301".data) (norm "AMD EPYC".data) (-1) :=
  ⟨(c10_year_zero_treated_absent "EPYC 7301".data (some "AMD EPYC".data)).1,
   (c10_year_zero_treated_absent "EPYC 7301".data (some "AMD EPYC".data)).2 (-1)
     (by decide) (by decide)⟩

/-- Claim C9: the legacy Intel branch is dead code (its guard implies the
Intel Scalable guard, which is checked first), so the classifier never
returns "Ivy Bridge", "Haswell" or "Broadwell": every output lies in the
eleven-element set of the empty string and the AMD and Intel Scalable
labels. -/
theorem c9_legacy_branch_unreachable (model : List Char) (year : Option Int)
    (family : Option (List Char)) :
    determine_cpu_generation model year family ∈
      (["", "Naples", "Rome", "Milan", "Genoa", "Siena", "Skylake",
        "Cascade Lake", "Ice Lake", "Sapphire Rapids",
        "Emerald Rapids"] : List String) := by
  unfold determine_cpu_generation
  split
  · decide
  · unfold coreClassify
    split
    · exact mem_of_mem_of_incl (amdBranch_mem _ _) (by decide)
    · next hx =>
      split
      · exact mem_of_mem_of_incl (intelBranch_mem _ _ _) (by decide)
      · next hx2 =>
        have hxf : xeonCond (norm model) (norm (family.getD [])) = false := by
          simpa using hx2
        have hl := legacyCond_eq_false _ _ hxf
        rw [if_neg (by simp [hl])]
        decide

/-- Claim C7: the classifier is a total function on well-typed inputs; in
this embedding it is total by construction, and every path returns one of
the fixed vocabulary strings, with every failure mode collapsing to the
empty (unknown) result rather than a thrown error. -/
theorem c7_totality_vocabulary (model : List Char) (year : Option Int)
    (family : Option (List Char)) :
    determine_cpu_generation model year family ∈
      (["", "Naples", "Rome", "Milan", "Genoa", "Siena", "Skylake",
        "Cascade Lake", "Ice Lake", "Sapphire Rapids", "Emerald Rapids",
        "Ivy Bridge", "Haswell", "Broadwell"] : List String) := by
  unfold determine_cpu_generation
  split
  · decide
  · unfold coreClassify
    split
    · exact mem_of_mem_of_incl (amdBranch_mem _ _) (by decide)
    · split
      · exact mem_of_mem_of_incl (intelBranch_mem _ _ _) (by decide)
      · split
        · exact mem_of_mem_of_incl (legacyBranch_mem _ _) (by decide)
        · decide

/-- Unfolding equation: a successful extraction feeds the series step. -/
theorem intelSeries_eq_step (mu : List Char) (y : Int) (v : Nat)
    (hex : extract4 mu = some v) : intelSeries mu y = seriesStep v y := by
  unfold intelSeries
  rw [hex]

/-- Unfolding equation: a label from the model-number step is returned. -/
theorem intelBranch_eq_of_series (mu fu : List Char) (y : Int) (s : String)
    (h : intelSeries mu y = some s) : intelBranch mu fu y = s := by
  unfold intelBranch
  rw [h]

/-- Unfolding equation: with no label from the model-number step, the
Intel branch returns the fallback result, with `""` for no label. -/
theorem intelBranch_eq_of_none (mu fu : List Char) (y : Int)
    (h : intelSeries mu y = none) :
    intelBranch mu fu y = (intelFallback fu y).getD "" := by
  unfold intelBranch
  rw [h]
  cases hf : intelFallback fu y <;> rfl

/-- Claim C2: the vendor branches are tried in the fixed order AMD, then
Intel Scalable, then legacy Intel; only the first branch whose guard holds
determines the result, and in particular a model containing both the
"EPYC" and the "XEON" marker is resolved by the AMD branch alone. -/
theorem c2_vendor_dispatch_order (model : List Char) (year : Int)
    (family : Option (List Char)) (hm : model ≠ []) (hy : year ≠ 0) :
    (epycCond (norm model) (norm (family.getD [])) = true →
      determine_cpu_generation model (some year) family
        = amdBranch (norm model) year)
    ∧ (epycCond (norm model) (norm (family.getD [])) = false →
       xeonCond (norm model) (norm (family.getD [])) = true →
      determine_cpu_generation model (some year) family
        = intelBranch (norm model) (norm (family.getD [])) year)
    ∧ (epycCond (norm model) (norm (family.getD [])) = false →
       xeonCond (norm model) (norm (family.getD [])) = false →
      determine_cpu_generation model (some year) family
        = if legacyCond (norm model) (norm (family.getD [])) = true
          then legacyBranch (norm model) year else "")
    ∧ (pyIn "EPYC".data model = true → pyIn "XEON".data model = true →
      determine_cpu_generation model (some year) family
        = amdBranch (norm model) year) := by
  rw [determine_eq_core model year family hm hy]
  unfold coreClassify
  refine ⟨?_, ?_, ?_, ?_⟩
  · intro he
    rw [if_pos he]
  · intro he hx
    rw [if_neg (by simp [he]), if_pos hx]
  · intro he hx
    rw [if_neg (by simp [he]), if_neg (by simp [hx])]
  · intro hem hxm
    have he : epycCond (norm model) (norm (family.getD [])) = true := by
      unfold epycCond
      rw [pyIn_norm "EPYC".data model (by decide) (by decide) (by decide) hem]
      simp
    rw [if_pos he]

/-- Witness for C2: a model carrying both markers goes through the AMD
branch. -/
theorem c2_vendor_dispatch_order_witness :
    determine_cpu_generation "EPYC XEON 7000".data (some 2017) none
      = amdBranch (norm "EPYC XEON 7000".data) 2017 :=
  (c2_vendor_dispatch_order "EPYC XEON 7000".data 2017 none
      (by decide) (by decide)).2.2.2 (by decide) (by decide)

/-- Claim C4: inside the AMD branch, any normalised model containing the
character "7" is decided by the 7-series year table (2017 gives Naples,
2019 and 2020 give Rome, 2021 and 2022 give Milan, anything else the
unknown result), and this check has priority over the later series
checks.  The two concrete examples of the spec are included. -/
theorem c4_amd_seven_series :
    (∀ (model : List Char) (year : Int) (family : Option (List Char)),
      model ≠ [] → year ≠ 0 →
      epycCond (norm model) (norm (family.getD [])) = true →
      pyIn "7".data (norm model) = true →
      determine_cpu_generation model (some year) family
        = (if year = 2017 then "Naples"
           else if year = 2019 ∨ year = 2020 then "Rome"
           else if year = 2021 ∨ year = 2022 then "Milan" else ""))
    ∧ determine_cpu_generation "EPYC 7301".data (some 2017)
        (some "AMD EPYC".data) = "Naples"
    ∧ determine_cpu_generation "EPYC 7302".data (some 2021)
        (some "AMD EPYC".data) = "Milan" := by
  refine ⟨?_, by decide, by decide⟩
  intro model year family hm hy he h7
  rw [determine_eq_core model year family hm hy]
  unfold coreClassify
  rw [if_pos he]
  unfold amdBranch
  rw [if_pos (by simp [h7])]

/-- Witness for C4 at a model that also matches the later 9-series check:
the 7-series table still decides, giving Rome for 2019. -/
theorem c4_amd_seven_series_witness :
    determine_cpu_generation "EPYC 9754 X7".data (some 2019)
      (some "AMD EPYC".data)
      = (if (2019 : Int) = 2017 then "Naples"
         else if (2019 : Int) = 2019 ∨ (2019 : Int) = 2020 then "Rome"
         else if (2019 : Int) = 2021 ∨ (2019 : Int) = 2022 then "Milan"
         else "") :=
  c4_amd_seven_series.1 "EPYC 9754 X7".data 2019 (some "AMD EPYC".data)
    (by decide) (by decide) (by decide) (by decide)

/-- Claim C5: inside the Intel Scalable branch, when the 4-digit
model-number step produces no label and the normalised family contains one
of the keywords "SCALABLE", "GOLD", "PLATINUM", "SILVER", the result is
keyed on the year alone: 2017 and 2018 give Skylake, 2019 and 2020 give
Cascade Lake, 2021 Ice Lake, 2023 Sapphire Rapids, 2024 Emerald Rapids,
anything else the unknown result.  The concrete spec example with
Gold 6140 in 2022 is included. -/
theorem c5_intel_family_fallback :
    (∀ (model : List Char) (year : Int) (family : Option (List Char)),
      model ≠ [] → year ≠ 0 →
      epycCond (norm model) (norm (family.getD [])) = false →
      xeonCond (norm model) (norm (family.getD [])) = true →
      intelSeries (norm model) year = none →
      (pyIn "SCALABLE".data (norm (family.getD [])) = true
       ∨ pyIn "GOLD".data (norm (family.getD [])) = true
       ∨ pyIn "PLATINUM".data (norm (family.getD [])) = true
       ∨ pyIn "SILVER".data (norm (family.getD [])) = true) →
      determine_cpu_generation model (some year) family
        = (if year = 2017 ∨ year = 2018 then "Skylake"
           else if year = 2019 ∨ year = 2020 then "Cascade Lake"
           else if year = 2021 then "Ice Lake"
           else if year = 2023 then "Sapphire Rapids"
           else if year = 2024 then "Emerald Rapids" else ""))
    ∧ determine_cpu_generation "Gold 6140".data (some 2022)
        (some "Intel Xeon Gold".data) = "" := by
  refine ⟨?_, by decide⟩
  intro model year family hm hy he hx hser hkey
  rw [determine_eq_core model year family hm hy]
  unfold coreClassify
  rw [if_neg (by simp [he]), if_pos hx]
  rw [intelBranch_eq_of_none _ _ _ hser]
  have hkc : (pyIn "SCALABLE".data (norm (family.getD []))
      || pyIn "GOLD".data (norm (family.getD []))
      || pyIn "PLATINUM".data (norm (family.getD []))
      || pyIn "SILVER".data (norm (family.getD []))) = true := by
    rcases hkey with h | h | h | h <;> simp [h]
  unfold intelFallback
  rw [if_pos hkc]
  unfold fallbackYear
  repeat' split
  all_goals simp_all

/-- Witness for C5: a Xeon model with no 4-digit number, classified by the
family fallback for year 2021. -/
theorem c5_intel_family_fallback_witness :
    determine_cpu_generation "Xeon Gold".data (some 2021)
      (some "Intel Xeon Gold".data)
      = (if (2021 : Int) = 2017 ∨ (2021 : Int) = 2018 then "Skylake"
         else if (2021 : Int) = 2019 ∨ (2021 : Int) = 2020 then "Cascade Lake"
         else if (2021 : Int) = 2021 then "Ice Lake"
         else if (2021 : Int) = 2023 then "Sapphire Rapids"
         else if (2021 : Int) = 2024 then "Emerald Rapids" else "") :=
  c5_intel_family_fallback.1 "Xeon Gold".data 2021 (some "Intel Xeon Gold".data)
    (by decide) (by decide) (by decide) (by decide) (by decide)
    (Or.inr (Or.inl (by decide)))

/-- Claim C3: inside the Intel Scalable branch, when the extracted first
4-digit number has leading digit 8, years 2017 and 2018 give Skylake, and
for years 2023 and 2024 the numeric value decides: a value in [8500,8600)
gives Sapphire Rapids for 2023 and Emerald Rapids for 2024, a value of at
least 8600 gives Emerald Rapids, and a value below 8500 gives Sapphire
Rapids.  The two Platinum 8592 spec examples are included. -/
theorem c3_intel_eight_series :
    (∀ (model : List Char) (year : Int) (family : Option (List Char)) (v : Nat),
      model ≠ [] → year ≠ 0 →
      epycCond (norm model) (norm (family.getD [])) = false →
      xeonCond (norm model) (norm (family.getD [])) = true →
      extract4 (norm model) = some v → v / 1000 = 8 →
      ((year = 2017 ∨ year = 2018 →
          determine_cpu_generation model (some year) family = "Skylake")
       ∧ (year = 2023 ∨ year = 2024 →
          (8500 ≤ v → v < 8600 →
            determine_cpu_generation model (some year) family
              = if year = 2023 then "Sapphire Rapids" else "Emerald Rapids")
          ∧ (8600 ≤ v →
            determine_cpu_generation model (some year) family
              = "Emerald Rapids")
          ∧ (v < 8500 →
            determine_cpu_generation model (some year) family
              = "Sapphire Rapids"))))
    ∧ determine_cpu_generation "Platinum 8592".data (some 2023)
        (some "Intel Xeon Platinum".data) = "Sapphire Rapids"
    ∧ determine_cpu_generation "Platinum 8592".data (some 2024)
        (some "Intel Xeon Platinum".data) = "Emerald Rapids" := by
  refine ⟨?_, by decide, by decide⟩
  intro model year family v hm hy he hx hex hdiv
  have hcore : determine_cpu_generation model (some year) family
      = intelBranch (norm model) (norm (family.getD [])) year := by
    rw [determine_eq_core model year family hm hy]
    unfold coreClassify
    rw [if_neg (by simp [he]), if_pos hx]
  have hser : ∀ s : String, seriesStep v year = some s →
      determine_cpu_generation model (some year) family = s := by
    intro s hs
    rw [hcore, intelBranch_eq_of_series _ _ _ s
      (by rw [intelSeries_eq_step _ _ _ hex, hs])]
  constructor
  · intro h1718
    refine hser "Skylake" ?_
    unfold seriesStep
    rw [if_pos hdiv, if_pos h1718]
  · intro h2324
    have hno1718 : ¬(year = 2017 ∨ year = 2018) := by
      rcases h2324 with rfl | rfl <;> simp
    refine ⟨?_, ?_, ?_⟩
    · intro hlo hhi
      refine hser _ ?_
      unfold seriesStep
      rw [if_pos hdiv, if_neg hno1718, if_pos h2324, if_pos ⟨hlo, hhi⟩]
    · intro h86
      refine hser "Emerald Rapids" ?_
      unfold seriesStep
      rw [if_pos hdiv, if_neg hno1718, if_pos h2324,
        if_neg (by omega), if_pos h86]
    · intro hlt
      refine hser "Sapphire Rapids" ?_
      unfold seriesStep
      rw [if_pos hdiv, if_neg hno1718, if_pos h2324,
        if_neg (by omega), if_neg (by omega)]

/-- Witness for C3: a Platinum 8480 model in 2023 gives Sapphire Rapids
through the below-8500 case. -/
theorem c3_intel_eight_series_witness :
    determine_cpu_generation "Platinum 8480".data (some 2023)
      (some "Intel Xeon Platinum".data) = "Sapphire Rapids" :=
  ((c3_intel_eight_series.1 "Platinum 8480".data 2023
      (some "Intel Xeon Platinum".data) 8480 (by decide) (by decide)
      (by decide) (by decide) (by decide) (by decide)).2
    (Or.inl rfl)).2.2 (by decide)

/-- Claim C8: the classifier is a pure function of its three arguments.
In any two call sequences, positions holding the same arguments produce
the same output, independent of the surrounding calls and of their order,
and the output at a position is fully determined by the arguments there;
the embedding is a state-free function, so nothing is mutated. -/
theorem c8_determinism_purity
    (calls calls' : List (List Char × Option Int × Option (List Char)))
    (i j : Nat) (c : List Char × Option Int × Option (List Char))
    (hi : calls[i]? = some c) (hj : calls'[j]? = some c) :
    (runCalls calls)[i]? = (runCalls calls')[j]?
    ∧ (runCalls calls)[i]?
        = some (determine_cpu_generation c.1 c.2.1 c.2.2) := by
  unfold runCalls
  rw [List.getElem?_map, List.getElem?_map, hi, hj]
  exact ⟨rfl, rfl⟩

/-- Witness for C8: the same call embedded in two different call
sequences at different positions yields the same output. -/
theorem c8_determinism_purity_witness :
    (runCalls [("Gold 6240".data, some 2019, some "Intel Xeon Gold".data),
               ("EPYC 7301".data, some 2017, some "AMD EPYC".data)])[1]?
      = (runCalls [("EPYC 7301".data, some 2017,
                    some "AMD EPYC".data)])[0]?
    ∧ (runCalls [("Gold 6240".data, some 2019, some "Intel Xeon Gold".data),
                 ("EPYC 7301".data, some 2017,
                  some "AMD EPYC".data)])[1]?
      = some (determine_cpu_generation "EPYC 7301".data (some 2017)
          (some "AMD EPYC".data)) :=
  c8_determinism_purity
    [("Gold 6240".data, some 2019, some "Intel Xeon Gold".data),
     ("EPYC 7301".data, some 2017, some "AMD EPYC".data)]
    [("EPYC 7301".data, some 2017, some "AMD EPYC".data)]
    1 0 ("EPYC 7301".data, some 2017, some "AMD EPYC".data) rfl rfl

end CpuSpec
